import Mathlib

/-!
Shallow embedding of the hand-written adaptation layer of `tremor-otelapis`
(`src/lib.rs`): per-signal callback adapters, per-signal queue-forwarding
adapters, and the combined tagged-union forwarding server, together with the
minimal model of the external collaborators they use (tonic request/response
envelopes, tonic status values, the `async_channel` bounded queue, and the
tonic server builder).

Stateful queue operations are embedded by explicit state passing: a producer
handle is identified with the queue state it reaches, and every `export`
returns the updated queue alongside its result.
-/

/-- Modelled from the spec: the schema-defined logs export request is an
opaque payload handed in by the transport layer; the generated message type
(`ExportLogsServiceRequest`) lives outside `src/`, so its content is
abstracted to one opaque value. -/
structure ExportLogsServiceRequest where
  payload : Nat
deriving DecidableEq

/-- Modelled from the spec: the schema-defined metrics export request,
abstracted to one opaque payload value (generated code outside `src/`). -/
structure ExportMetricsServiceRequest where
  payload : Nat
deriving DecidableEq

/-- Modelled from the spec: the schema-defined trace export request,
abstracted to one opaque payload value (generated code outside `src/`). -/
structure ExportTraceServiceRequest where
  payload : Nat
deriving DecidableEq

/-- The empty logs acknowledgement message (`ExportLogsServiceResponse {}`). -/
structure ExportLogsServiceResponse where
deriving DecidableEq

/-- The empty metrics acknowledgement message. -/
structure ExportMetricsServiceResponse where
deriving DecidableEq

/-- The empty trace acknowledgement message. -/
structure ExportTraceServiceResponse where
deriving DecidableEq

/-- Model of `tonic::Request<T>`: the transport-level envelope carrying
metadata headers, the remote address, and the inner protocol-buffer message. -/
structure TonicRequest (α : Type) where
  metadata : List (String × String)
  remoteAddr : Option String
  message : α
deriving DecidableEq

/-- `tonic::Request::into_inner`: consumes the envelope, yielding only the
inner message. -/
def TonicRequest.into_inner (r : TonicRequest α) : α := r.message

/-- Model of `tonic::Response<T>`. -/
structure TonicResponse (α : Type) where
  message : α
deriving DecidableEq

/-- `tonic::Response::new`. -/
def TonicResponse.new (m : α) : TonicResponse α := ⟨m⟩

/-- The tonic status codes used by this layer. -/
inductive StatusCode where
  | ok
  | internal
deriving DecidableEq

/-- Model of `tonic::Status`: a code plus a human-readable message. -/
structure Status where
  code : StatusCode
  message : String
deriving DecidableEq

/-- `tonic::Status::internal`: an internal transport-level failure status. -/
def Status.internal (msg : String) : Status := ⟨StatusCode.internal, msg⟩

/-- Model of `async_channel::SendError<T>`: returned by a failed send,
carrying back the undelivered item. -/
structure SendError (α : Type) where
  item : α
deriving DecidableEq

/-- The `Display` rendering of `async_channel::SendError` (used by the
`format!` in each forwarder's error arm); it does not depend on the item. -/
def SendError.toString (_e : SendError α) : String :=
  "sending into a closed channel"

/-- Model of the `async_channel` queue reached by a `Sender` handle: a FIFO
buffer of pending items plus a closed flag. Suspension while the queue is at
capacity is abstracted away (the call completes once the item is accepted),
which is the sequential view of the bounded send. -/
structure Channel (α : Type) where
  closed : Bool
  items : List α
deriving DecidableEq

/-- `async_channel::Sender::send`: fails (returning the item, queue
unchanged) when the channel is closed; otherwise appends the item FIFO. -/
def Channel.send (ch : Channel α) (x : α) : Except (SendError α) Unit × Channel α :=
  if ch.closed then (Except.error ⟨x⟩, ch)
  else (Except.ok (), { ch with items := ch.items ++ [x] })

/-- `Sender::clone`: another handle to the same channel; in this embedding a
handle is identified with its channel, so cloning is the identity. -/
def Channel.clone (ch : Channel α) : Channel α := ch

/-- Model of `std::net::SocketAddr`. -/
structure SocketAddr where
  host : String
  port : Nat
deriving DecidableEq

/-- Model of `tonic::transport::Error`: an opaque fatal transport failure. -/
structure TransportError where
  msg : String
deriving DecidableEq

/-- The generated `TraceServiceServer<S>` wrapper (tonic-build skeleton). -/
structure TraceServiceServer (S : Type) where
  inner : S
deriving DecidableEq

/-- `TraceServiceServer::new`. -/
def TraceServiceServer.new (s : S) : TraceServiceServer S := ⟨s⟩

/-- The `NamedService` wire identifier of `TraceServiceServer` (lib.rs:155). -/
def TraceServiceServer.NAME : String :=
  "opentelemetry.proto.collector.trace.v1.TraceService"

/-- The generated `LogsServiceServer<S>` wrapper (tonic-build skeleton). -/
structure LogsServiceServer (S : Type) where
  inner : S
deriving DecidableEq

/-- `LogsServiceServer::new`. -/
def LogsServiceServer.new (s : S) : LogsServiceServer S := ⟨s⟩

/-- The `NamedService` wire identifier of `LogsServiceServer` (lib.rs:210). -/
def LogsServiceServer.NAME : String :=
  "opentelemetry.proto.collector.logs.v1.LogsService"

/-- The generated `MetricsServiceServer<S>` wrapper (tonic-build skeleton). -/
structure MetricsServiceServer (S : Type) where
  inner : S
deriving DecidableEq

/-- `MetricsServiceServer::new`. -/
def MetricsServiceServer.new (s : S) : MetricsServiceServer S := ⟨s⟩

/-- The `NamedService` wire identifier of `MetricsServiceServer` (lib.rs:313). -/
def MetricsServiceServer.NAME : String :=
  "opentelemetry.proto.collector.metrics.v1.MetricsService"

/-! ### Per-signal callback adapters (`trace`, `logs`, `metrics` modules) -/

/-- `trace::OtelTraceService` (lib.rs:172): holds one trace handler. -/
structure OtelTraceService where
  on_trace : TonicRequest ExportTraceServiceRequest →
    Except Status (TonicResponse ExportTraceServiceResponse)

/-- `OtelTraceService::with_handler` (lib.rs:178). -/
def OtelTraceService.with_handler (handler : TonicRequest ExportTraceServiceRequest →
    Except Status (TonicResponse ExportTraceServiceResponse)) : OtelTraceService :=
  { on_trace := handler }

/-- `TraceService::export` for `OtelTraceService` (lib.rs:190-195): invokes
the stored handler on the incoming request. (`export` is a Lean keyword, so
the method is embedded under the name `export'`.) -/
def OtelTraceService.export' (self : OtelTraceService)
    (request : TonicRequest ExportTraceServiceRequest) :
    Except Status (TonicResponse ExportTraceServiceResponse) :=
  self.on_trace request

/-- `trace::make_service` (lib.rs:184-186). -/
def trace.make_service (handler : TonicRequest ExportTraceServiceRequest →
    Except Status (TonicResponse ExportTraceServiceResponse)) :
    TraceServiceServer OtelTraceService :=
  TraceServiceServer.new (OtelTraceService.with_handler handler)

/-- `logs::OtelLogsService` (lib.rs:230): holds one logs handler. -/
structure OtelLogsService where
  on_logs : TonicRequest ExportLogsServiceRequest →
    Except Status (TonicResponse ExportLogsServiceResponse)

/-- `OtelLogsService::with_handler` (lib.rs:236). -/
def OtelLogsService.with_handler (handler : TonicRequest ExportLogsServiceRequest →
    Except Status (TonicResponse ExportLogsServiceResponse)) : OtelLogsService :=
  { on_logs := handler }

/-- `LogsService::export` for `OtelLogsService` (lib.rs:243-248). -/
def OtelLogsService.export' (self : OtelLogsService)
    (request : TonicRequest ExportLogsServiceRequest) :
    Except Status (TonicResponse ExportLogsServiceResponse) :=
  self.on_logs request

/-- `logs::make_service` (lib.rs:252-254). -/
def logs.make_service (handler : TonicRequest ExportLogsServiceRequest →
    Except Status (TonicResponse ExportLogsServiceResponse)) :
    LogsServiceServer OtelLogsService :=
  LogsServiceServer.new (OtelLogsService.with_handler handler)

/-- `metrics::OtelMetricsService` (lib.rs:327): holds one metrics handler. -/
structure OtelMetricsService where
  on_metrics : TonicRequest ExportMetricsServiceRequest →
    Except Status (TonicResponse ExportMetricsServiceResponse)

/-- `OtelMetricsService::with_handler` (lib.rs:333). -/
def OtelMetricsService.with_handler (handler : TonicRequest ExportMetricsServiceRequest →
    Except Status (TonicResponse ExportMetricsServiceResponse)) : OtelMetricsService :=
  { on_metrics := handler }

/-- `MetricsService::export` for `OtelMetricsService` (lib.rs:342-347). -/
def OtelMetricsService.export' (self : OtelMetricsService)
    (request : TonicRequest ExportMetricsServiceRequest) :
    Except Status (TonicResponse ExportMetricsServiceResponse) :=
  self.on_metrics request

/-- `metrics::make_service` (lib.rs:351-355). -/
def metrics.make_service (handler : TonicRequest ExportMetricsServiceRequest →
    Except Status (TonicResponse ExportMetricsServiceResponse)) :
    MetricsServiceServer OtelMetricsService :=
  MetricsServiceServer.new (OtelMetricsService.with_handler handler)

/-! ### Per-signal queue-forwarding adapters (`logs`, `metrics` modules) -/

/-- `logs::OtelLogsServiceForwarder` (lib.rs:263): holds one producer handle
to a queue of logs requests. -/
structure OtelLogsServiceForwarder where
  channel : Channel ExportLogsServiceRequest
deriving DecidableEq

/-- `OtelLogsServiceForwarder::with_sender` (lib.rs:270). -/
def OtelLogsServiceForwarder.with_sender
    (channel : Channel ExportLogsServiceRequest) : OtelLogsServiceForwarder :=
  { channel }

/-- `LogsService::export` for `OtelLogsServiceForwarder` (lib.rs:279-290):
sends the inner message onto the queue; acknowledges with a fresh empty
response on success, or an internal status naming the Logs signal on
failure. The updated queue state is returned alongside. -/
def OtelLogsServiceForwarder.export' (self : OtelLogsServiceForwarder)
    (request : TonicRequest ExportLogsServiceRequest) :
    Except Status (TonicResponse ExportLogsServiceResponse) × OtelLogsServiceForwarder :=
  match self.channel.send request.into_inner with
  | (Except.ok _, ch) =>
    (Except.ok (TonicResponse.new ExportLogsServiceResponse.mk), { self with channel := ch })
  | (Except.error e, ch) =>
    (Except.error (Status.internal
      ("Logs gRPC forwarder channel sender failed to dispatch " ++ e.toString)),
     { self with channel := ch })

/-- `logs::make_forwarder` (lib.rs:294-296). -/
def logs.make_forwarder (sender : Channel ExportLogsServiceRequest) :
    LogsServiceServer OtelLogsServiceForwarder :=
  LogsServiceServer.new (OtelLogsServiceForwarder.with_sender sender)

/-- `metrics::OtelMetricsServiceForwarder` (lib.rs:364). -/
structure OtelMetricsServiceForwarder where
  channel : Channel ExportMetricsServiceRequest
deriving DecidableEq

/-- `OtelMetricsServiceForwarder::with_sender` (lib.rs:370). -/
def OtelMetricsServiceForwarder.with_sender
    (channel : Channel ExportMetricsServiceRequest) : OtelMetricsServiceForwarder :=
  { channel }

/-- `MetricsService::export` for `OtelMetricsServiceForwarder`
(lib.rs:379-390). -/
def OtelMetricsServiceForwarder.export' (self : OtelMetricsServiceForwarder)
    (request : TonicRequest ExportMetricsServiceRequest) :
    Except Status (TonicResponse ExportMetricsServiceResponse) × OtelMetricsServiceForwarder :=
  match self.channel.send request.into_inner with
  | (Except.ok _, ch) =>
    (Except.ok (TonicResponse.new ExportMetricsServiceResponse.mk), { self with channel := ch })
  | (Except.error e, ch) =>
    (Except.error (Status.internal
      ("Metrics gRPC forwarder channel sender failed to dispatch " ++ e.toString)),
     { self with channel := ch })

/-- `metrics::make_forwarder` (lib.rs:394-398). -/
def metrics.make_forwarder (sender : Channel ExportMetricsServiceRequest) :
    MetricsServiceServer OtelMetricsServiceForwarder :=
  MetricsServiceServer.new (OtelMetricsServiceForwarder.with_sender sender)

/-! ### Combined tagged-union forwarding (`all` module) -/

/-- `all::OpenTelemetryEvents` (lib.rs:412-419): the tagged union carried by
the combined queue, one variant per signal. -/
inductive OpenTelemetryEvents where
  | Logs (r : ExportLogsServiceRequest)
  | Metrics (r : ExportMetricsServiceRequest)
  | Trace (r : ExportTraceServiceRequest)
deriving DecidableEq

/-- `all::LogsServiceForwarder` (lib.rs:428): holds one producer handle to
the tagged-event queue. -/
structure all.LogsServiceForwarder where
  channel : Channel OpenTelemetryEvents
deriving DecidableEq

/-- `all::LogsServiceForwarder::with_sender` (lib.rs:434). -/
def all.LogsServiceForwarder.with_sender
    (channel : Channel OpenTelemetryEvents) : all.LogsServiceForwarder :=
  { channel }

/-- `LogsService::export` for `all::LogsServiceForwarder` (lib.rs:443-460):
wraps the inner message into the `Logs` variant immediately before sending. -/
def all.LogsServiceForwarder.export' (self : all.LogsServiceForwarder)
    (request : TonicRequest ExportLogsServiceRequest) :
    Except Status (TonicResponse ExportLogsServiceResponse) × all.LogsServiceForwarder :=
  match self.channel.send (OpenTelemetryEvents.Logs request.into_inner) with
  | (Except.ok _, ch) =>
    (Except.ok (TonicResponse.new ExportLogsServiceResponse.mk), { self with channel := ch })
  | (Except.error e, ch) =>
    (Except.error (Status.internal
      ("Logs gRPC forwarder channel sender failed to dispatch " ++ e.toString)),
     { self with channel := ch })

/-- `all::MetricsServiceForwarder` (lib.rs:464). -/
structure all.MetricsServiceForwarder where
  channel : Channel OpenTelemetryEvents
deriving DecidableEq

/-- `all::MetricsServiceForwarder::with_sender` (lib.rs:470). -/
def all.MetricsServiceForwarder.with_sender
    (channel : Channel OpenTelemetryEvents) : all.MetricsServiceForwarder :=
  { channel }

/-- `MetricsService::export` for `all::MetricsServiceForwarder`
(lib.rs:479-497): wraps the inner message into the `Metrics` variant
immediately before sending. -/
def all.MetricsServiceForwarder.export' (self : all.MetricsServiceForwarder)
    (request : TonicRequest ExportMetricsServiceRequest) :
    Except Status (TonicResponse ExportMetricsServiceResponse) × all.MetricsServiceForwarder :=
  match self.channel.send (OpenTelemetryEvents.Metrics request.into_inner) with
  | (Except.ok _, ch) =>
    (Except.ok (TonicResponse.new ExportMetricsServiceResponse.mk), { self with channel := ch })
  | (Except.error e, ch) =>
    (Except.error (Status.internal
      ("Metrics gRPC forwarder channel sender failed to dispatch " ++ e.toString)),
     { self with channel := ch })

/-- `all::TraceServiceForwarder` (lib.rs:501). -/
structure all.TraceServiceForwarder where
  channel : Channel OpenTelemetryEvents
deriving DecidableEq

/-- `all::TraceServiceForwarder::with_sender` (lib.rs:507). -/
def all.TraceServiceForwarder.with_sender
    (channel : Channel OpenTelemetryEvents) : all.TraceServiceForwarder :=
  { channel }

/-- `TraceService::export` for `all::TraceServiceForwarder` (lib.rs:516-534):
wraps the inner message into the `Trace` variant immediately before sending. -/
def all.TraceServiceForwarder.export' (self : all.TraceServiceForwarder)
    (request : TonicRequest ExportTraceServiceRequest) :
    Except Status (TonicResponse ExportTraceServiceResponse) × all.TraceServiceForwarder :=
  match self.channel.send (OpenTelemetryEvents.Trace request.into_inner) with
  | (Except.ok _, ch) =>
    (Except.ok (TonicResponse.new ExportTraceServiceResponse.mk), { self with channel := ch })
  | (Except.error e, ch) =>
    (Except.error (Status.internal
      ("Trace gRPC forwarder channel sender failed to dispatch " ++ e.toString)),
     { self with channel := ch })

/-- A service registered on the combined tonic server builder: the three
concrete `add_service` arguments of `all::make`. -/
inductive RegisteredService where
  | traceSvc (s : TraceServiceServer all.TraceServiceForwarder)
  | logsSvc (s : LogsServiceServer all.LogsServiceForwarder)
  | metricsSvc (s : MetricsServiceServer all.MetricsServiceForwarder)
deriving DecidableEq

/-- Model of `tonic::transport::Server` builder state: the list of services
registered so far, in registration order. -/
structure ServerBuilder where
  services : List RegisteredService
deriving DecidableEq

/-- `Server::builder`. -/
def Server.builder : ServerBuilder := ⟨[]⟩

/-- `ServerBuilder::add_service`. -/
def ServerBuilder.add_service (b : ServerBuilder) (s : RegisteredService) : ServerBuilder :=
  ⟨b.services ++ [s]⟩

/-- `all::make` (lib.rs:538-554): builds one forwarder per signal from
clones of the one sender, registers all three on one server builder, and
serves on the given address. Serving itself is the external tonic transport:
it is abstracted as a function from the built configuration and address to
the task's resolution, of type `Except TransportError Unit` (`Ok ()` on
listener shutdown, `Err` on a fatal transport error), exactly the return
type of the source function. -/
def all.make (addr : SocketAddr) (sender : Channel OpenTelemetryEvents)
    (serve : ServerBuilder → SocketAddr → Except TransportError Unit) :
    Except TransportError Unit :=
  serve
    (((Server.builder.add_service
        (RegisteredService.traceSvc (TraceServiceServer.new
          (all.TraceServiceForwarder.with_sender sender.clone)))).add_service
        (RegisteredService.logsSvc (LogsServiceServer.new
          (all.LogsServiceForwarder.with_sender sender.clone)))).add_service
        (RegisteredService.metricsSvc (MetricsServiceServer.new
          (all.MetricsServiceForwarder.with_sender sender))))
    addr

/-! ### Derived machinery for stating the claims -/

/-- The three observability signals. -/
inductive Signal where
  | logs
  | metrics
  | trace
deriving DecidableEq

/-- Which signals the source equips with a single-signal queue-forwarding
constructor over the signal's own request type: the `logs` module defines
`make_forwarder` (lib.rs:294) and the `metrics` module defines
`make_forwarder` (lib.rs:394), while the `trace` module defines only the
callback `make_service` (lib.rs:184) — trace forwarding exists solely in the
combined (`all`, tagged-union) module. -/
def hasSingleSignalForwarder : Signal → Bool
  | Signal.logs => true
  | Signal.metrics => true
  | Signal.trace => false

/-- One client call against the combined server: a request for one of the
three signals. -/
inductive CallReq where
  | logsCall (r : TonicRequest ExportLogsServiceRequest)
  | metricsCall (r : TonicRequest ExportMetricsServiceRequest)
  | traceCall (r : TonicRequest ExportTraceServiceRequest)
deriving DecidableEq

/-- The tagged event a successful combined-mode export of this call
enqueues: the call's inner payload under its own signal's variant. -/
def CallReq.toEvent : CallReq → OpenTelemetryEvents
  | CallReq.logsCall r => OpenTelemetryEvents.Logs r.into_inner
  | CallReq.metricsCall r => OpenTelemetryEvents.Metrics r.into_inner
  | CallReq.traceCall r => OpenTelemetryEvents.Trace r.into_inner

/-- Run one call against the combined server's forwarders on the current
tagged-queue state; returns whether the acknowledgement was a success, plus
the updated queue. -/
def runCall (ch : Channel OpenTelemetryEvents) :
    CallReq → Bool × Channel OpenTelemetryEvents
  | CallReq.logsCall r =>
    let out := all.LogsServiceForwarder.export' (all.LogsServiceForwarder.with_sender ch) r
    (out.1.toBool, out.2.channel)
  | CallReq.metricsCall r =>
    let out := all.MetricsServiceForwarder.export' (all.MetricsServiceForwarder.with_sender ch) r
    (out.1.toBool, out.2.channel)
  | CallReq.traceCall r =>
    let out := all.TraceServiceForwarder.export' (all.TraceServiceForwarder.with_sender ch) r
    (out.1.toBool, out.2.channel)

/-- Run a sequence of calls sequentially, each call's acknowledgement
awaited before the next call is issued: returns the final queue state. -/
def runCalls (ch : Channel OpenTelemetryEvents) : List CallReq → Channel OpenTelemetryEvents
  | [] => ch
  | c :: cs => runCalls (runCall ch c).2 cs

/-- Whether every call in the sequential run was acknowledged with success. -/
def allAcksOk (ch : Channel OpenTelemetryEvents) : List CallReq → Bool
  | [] => true
  | c :: cs => (runCall ch c).1 && allAcksOk (runCall ch c).2 cs

/-! ### Helper lemmas -/

/-- A successful combined-mode call on an open queue appends exactly the
call's tagged event and acknowledges success. -/
theorem runCall_open (ch : Channel OpenTelemetryEvents) (c : CallReq)
    (h : ch.closed = false) :
    runCall ch c = (true, { closed := false, items := ch.items ++ [c.toEvent] }) := by
  cases c <;>
    simp [runCall, all.LogsServiceForwarder.export', all.MetricsServiceForwarder.export',
      all.TraceServiceForwarder.export', all.LogsServiceForwarder.with_sender,
      all.MetricsServiceForwarder.with_sender, all.TraceServiceForwarder.with_sender,
      Channel.send, h, CallReq.toEvent, TonicRequest.into_inner, Except.toBool]

/-! ### Claims -/

/-- C1: every successful queue-forwarding export (logs and metrics
single-signal adapters, trace combined adapter) places exactly one item
payload-equal to the incoming request onto the queue before returning, and
returns the signal's empty acknowledgement response, constructed fresh and
independent of the request content. -/
theorem C1_forward_export_enqueues_once_and_acks
    (f : OtelLogsServiceForwarder) (r : TonicRequest ExportLogsServiceRequest)
    (g : OtelMetricsServiceForwarder) (s : TonicRequest ExportMetricsServiceRequest)
    (t : all.TraceServiceForwarder) (u : TonicRequest ExportTraceServiceRequest)
    (hf : f.channel.closed = false) (hg : g.channel.closed = false)
    (ht : t.channel.closed = false) :
    OtelLogsServiceForwarder.export' f r =
      (Except.ok (TonicResponse.new ExportLogsServiceResponse.mk),
       { f with channel := { f.channel with items := f.channel.items ++ [r.into_inner] } }) ∧
    OtelMetricsServiceForwarder.export' g s =
      (Except.ok (TonicResponse.new ExportMetricsServiceResponse.mk),
       { g with channel := { g.channel with items := g.channel.items ++ [s.into_inner] } }) ∧
    all.TraceServiceForwarder.export' t u =
      (Except.ok (TonicResponse.new ExportTraceServiceResponse.mk),
       { t with channel := { t.channel with
           items := t.channel.items ++ [OpenTelemetryEvents.Trace u.into_inner] } }) := by
  refine ⟨?_, ?_, ?_⟩ <;>
    simp [OtelLogsServiceForwarder.export', OtelMetricsServiceForwarder.export',
      all.TraceServiceForwarder.export', Channel.send, hf, hg, ht]

/-- C1 witness: the theorem applied at concrete open queues and requests. -/
theorem C1_forward_export_enqueues_once_and_acks_witness :
    (⟨false, []⟩ : Channel ExportLogsServiceRequest).closed = false ∧
    (OtelLogsServiceForwarder.export' ⟨⟨false, []⟩⟩ ⟨[], none, ⟨7⟩⟩ =
      (Except.ok (TonicResponse.new ExportLogsServiceResponse.mk),
       { channel := { closed := false, items := [⟨7⟩] } }) ∧
     OtelMetricsServiceForwarder.export' ⟨⟨false, []⟩⟩ ⟨[], none, ⟨8⟩⟩ =
      (Except.ok (TonicResponse.new ExportMetricsServiceResponse.mk),
       { channel := { closed := false, items := [⟨8⟩] } }) ∧
     all.TraceServiceForwarder.export' ⟨⟨false, []⟩⟩ ⟨[], none, ⟨9⟩⟩ =
      (Except.ok (TonicResponse.new ExportTraceServiceResponse.mk),
       { channel := { closed := false, items := [OpenTelemetryEvents.Trace ⟨9⟩] } })) := by
  refine ⟨rfl, ?_⟩
  have h := C1_forward_export_enqueues_once_and_acks
    ⟨⟨false, []⟩⟩ ⟨[], none, ⟨7⟩⟩ ⟨⟨false, []⟩⟩ ⟨[], none, ⟨8⟩⟩ ⟨⟨false, []⟩⟩ ⟨[], none, ⟨9⟩⟩
    rfl rfl rfl
  simpa [TonicRequest.into_inner] using h

/-- C2: when the queue is closed, a forwarding export returns an error (the
forwarder and queue unchanged), never a success value; the error is an
internal transport-level status whose message names the affected signal. -/
theorem C2_forward_export_closed_queue_errors
    (f : OtelLogsServiceForwarder) (r : TonicRequest ExportLogsServiceRequest)
    (g : OtelMetricsServiceForwarder) (s : TonicRequest ExportMetricsServiceRequest)
    (t : all.TraceServiceForwarder) (u : TonicRequest ExportTraceServiceRequest)
    (hf : f.channel.closed = true) (hg : g.channel.closed = true)
    (ht : t.channel.closed = true) :
    OtelLogsServiceForwarder.export' f r =
      (Except.error (Status.internal
        "Logs gRPC forwarder channel sender failed to dispatch sending into a closed channel"),
       f) ∧
    OtelMetricsServiceForwarder.export' g s =
      (Except.error (Status.internal
        "Metrics gRPC forwarder channel sender failed to dispatch sending into a closed channel"),
       g) ∧
    all.TraceServiceForwarder.export' t u =
      (Except.error (Status.internal
        "Trace gRPC forwarder channel sender failed to dispatch sending into a closed channel"),
       t) := by
  refine ⟨?_, ?_, ?_⟩ <;>
    simp [OtelLogsServiceForwarder.export', OtelMetricsServiceForwarder.export',
      all.TraceServiceForwarder.export', Channel.send, hf, hg, ht, SendError.toString]

/-- C2 witness: the theorem applied at concrete closed queues. -/
theorem C2_forward_export_closed_queue_errors_witness :
    (⟨true, []⟩ : Channel ExportLogsServiceRequest).closed = true ∧
    OtelLogsServiceForwarder.export' ⟨⟨true, []⟩⟩ ⟨[], none, ⟨7⟩⟩ =
      (Except.error (Status.internal
        "Logs gRPC forwarder channel sender failed to dispatch sending into a closed channel"),
       ⟨⟨true, []⟩⟩) := by
  refine ⟨rfl, ?_⟩
  exact (C2_forward_export_closed_queue_errors
    ⟨⟨true, []⟩⟩ ⟨[], none, ⟨7⟩⟩ ⟨⟨true, []⟩⟩ ⟨[], none, ⟨8⟩⟩ ⟨⟨true, []⟩⟩ ⟨[], none, ⟨9⟩⟩
    rfl rfl rfl).1

/-- C3: every callback-mode adapter's export returns exactly the stored
handler applied to the incoming request — success or error propagated
unchanged, with no validation, transformation, or retry. -/
theorem C3_callback_export_is_handler
    (hT : TonicRequest ExportTraceServiceRequest →
      Except Status (TonicResponse ExportTraceServiceResponse))
    (rT : TonicRequest ExportTraceServiceRequest)
    (hL : TonicRequest ExportLogsServiceRequest →
      Except Status (TonicResponse ExportLogsServiceResponse))
    (rL : TonicRequest ExportLogsServiceRequest)
    (hM : TonicRequest ExportMetricsServiceRequest →
      Except Status (TonicResponse ExportMetricsServiceResponse))
    (rM : TonicRequest ExportMetricsServiceRequest) :
    OtelTraceService.export' (OtelTraceService.with_handler hT) rT = hT rT ∧
    OtelLogsService.export' (OtelLogsService.with_handler hL) rL = hL rL ∧
    OtelMetricsService.export' (OtelMetricsService.with_handler hM) rM = hM rM :=
  ⟨rfl, rfl, rfl⟩

/-- C4 counterexample: the claim asserts a single-signal queue-forwarding
constructor exists for every signal, but the trace module provides none
(only the callback `make_service`); the source's forwarder table refutes the
claim at the trace signal. -/
theorem C4_trace_has_no_single_signal_forwarder :
    hasSingleSignalForwarder Signal.trace = false := rfl

/-- C4 (amended): single-signal queue-forwarding constructors exist for logs
and metrics — each `make_forwarder` yields a server whose forwarder holds
the given producer handle to a queue of that signal's own request type — but
not for trace, whose queue forwarding exists only in the combined
tagged-union module. -/
theorem C4_single_signal_forwarders_logs_metrics_only :
    (∀ s : Channel ExportLogsServiceRequest,
      (logs.make_forwarder s).inner = OtelLogsServiceForwarder.with_sender s ∧
      (logs.make_forwarder s).inner.channel = s) ∧
    (∀ s : Channel ExportMetricsServiceRequest,
      (metrics.make_forwarder s).inner = OtelMetricsServiceForwarder.with_sender s ∧
      (metrics.make_forwarder s).inner.channel = s) ∧
    hasSingleSignalForwarder Signal.logs = true ∧
    hasSingleSignalForwarder Signal.metrics = true ∧
    hasSingleSignalForwarder Signal.trace = false ∧
    (∀ s : Channel OpenTelemetryEvents,
      (all.TraceServiceForwarder.with_sender s).channel = s) :=
  ⟨fun _ => ⟨rfl, rfl⟩, fun _ => ⟨rfl, rfl⟩, rfl, rfl, rfl, fun _ => rfl⟩

/-- C5: each combined-mode forwarder wraps its incoming request in the
tagged-event variant of its own signal, payload unchanged, constructing the
event at the enqueue step: on an open queue the enqueued item is exactly the
matching variant of the request's inner message. -/
theorem C5_combined_forwarders_tag_matching_variant
    (f : all.LogsServiceForwarder) (r : TonicRequest ExportLogsServiceRequest)
    (g : all.MetricsServiceForwarder) (s : TonicRequest ExportMetricsServiceRequest)
    (t : all.TraceServiceForwarder) (u : TonicRequest ExportTraceServiceRequest)
    (hf : f.channel.closed = false) (hg : g.channel.closed = false)
    (ht : t.channel.closed = false) :
    (all.LogsServiceForwarder.export' f r).2.channel.items =
      f.channel.items ++ [OpenTelemetryEvents.Logs r.into_inner] ∧
    (all.MetricsServiceForwarder.export' g s).2.channel.items =
      g.channel.items ++ [OpenTelemetryEvents.Metrics s.into_inner] ∧
    (all.TraceServiceForwarder.export' t u).2.channel.items =
      t.channel.items ++ [OpenTelemetryEvents.Trace u.into_inner] := by
  refine ⟨?_, ?_, ?_⟩ <;>
    simp [all.LogsServiceForwarder.export', all.MetricsServiceForwarder.export',
      all.TraceServiceForwarder.export', Channel.send, hf, hg, ht]

/-- C5 witness: the theorem applied at concrete open queues and requests. -/
theorem C5_combined_forwarders_tag_matching_variant_witness :
    (⟨false, []⟩ : Channel OpenTelemetryEvents).closed = false ∧
    ((all.LogsServiceForwarder.export' ⟨⟨false, []⟩⟩ ⟨[], none, ⟨1⟩⟩).2.channel.items =
      [OpenTelemetryEvents.Logs ⟨1⟩] ∧
     (all.MetricsServiceForwarder.export' ⟨⟨false, []⟩⟩ ⟨[], none, ⟨2⟩⟩).2.channel.items =
      [OpenTelemetryEvents.Metrics ⟨2⟩] ∧
     (all.TraceServiceForwarder.export' ⟨⟨false, []⟩⟩ ⟨[], none, ⟨3⟩⟩).2.channel.items =
      [OpenTelemetryEvents.Trace ⟨3⟩]) := by
  refine ⟨rfl, ?_⟩
  have h := C5_combined_forwarders_tag_matching_variant
    ⟨⟨false, []⟩⟩ ⟨[], none, ⟨1⟩⟩ ⟨⟨false, []⟩⟩ ⟨[], none, ⟨2⟩⟩ ⟨⟨false, []⟩⟩ ⟨[], none, ⟨3⟩⟩
    rfl rfl rfl
  simpa [TonicRequest.into_inner] using h

/-- C6: the wire-level service identifier of each of the three server types
is exactly the canonical fully-qualified OpenTelemetry collector service
name for its signal. -/
theorem C6_named_service_identifiers_canonical :
    LogsServiceServer.NAME = "opentelemetry.proto.collector.logs.v1.LogsService" ∧
    MetricsServiceServer.NAME = "opentelemetry.proto.collector.metrics.v1.MetricsService" ∧
    TraceServiceServer.NAME = "opentelemetry.proto.collector.trace.v1.TraceService" :=
  ⟨rfl, rfl, rfl⟩

/-- C7: the combined-server constructor builds exactly one queue-forwarding
adapter per signal — all three holding clones of the one producer handle
(cloning being identity on the handle) — registers the three as independent
services on a single server builder, and returns the serving task's
resolution, of type `Except TransportError Unit`: `Ok` only on listener
shutdown, `Err` only on a fatal transport error. -/
theorem C7_combined_server_registers_three_forwarders
    (addr : SocketAddr) (sender : Channel OpenTelemetryEvents)
    (serve : ServerBuilder → SocketAddr → Except TransportError Unit) :
    all.make addr sender serve =
      serve
        ⟨[RegisteredService.traceSvc (TraceServiceServer.new
            (all.TraceServiceForwarder.with_sender sender)),
          RegisteredService.logsSvc (LogsServiceServer.new
            (all.LogsServiceForwarder.with_sender sender)),
          RegisteredService.metricsSvc (MetricsServiceServer.new
            (all.MetricsServiceForwarder.with_sender sender))]⟩
        addr ∧
    Channel.clone sender = sender :=
  ⟨rfl, rfl⟩

/-- C8: for any sequence of export calls performed sequentially against the
combined server's forwarders on an open tagged queue, every call is
acknowledged with success and the consumer-visible queue holds exactly one
tagged event per call, appended in issue order (FIFO), each carrying the
call's original payload unchanged; within a single signal this specializes
to FIFO delivery in send order. -/
theorem C8_sequential_calls_fifo
    (ch : Channel OpenTelemetryEvents) (cs : List CallReq)
    (h : ch.closed = false) :
    (runCalls ch cs).items = ch.items ++ cs.map CallReq.toEvent ∧
    allAcksOk ch cs = true := by
  induction cs generalizing ch with
  | nil => simp [runCalls, allAcksOk]
  | cons c cs ih =>
    have hc := runCall_open ch c h
    have ih2 := ih { closed := false, items := ch.items ++ [c.toEvent] } rfl
    refine ⟨?_, ?_⟩
    · simp [runCalls, hc, ih2.1]
    · simp [allAcksOk, hc, ih2.2]

/-- C8 witness: one logs, one metrics, one trace call issued sequentially on
a fresh open queue are all acknowledged and observed as exactly three tagged
events in issue order with the original payloads. -/
theorem C8_sequential_calls_fifo_witness :
    (⟨false, []⟩ : Channel OpenTelemetryEvents).closed = false ∧
    ((runCalls ⟨false, []⟩
        [CallReq.logsCall ⟨[], none, ⟨1⟩⟩, CallReq.metricsCall ⟨[], none, ⟨2⟩⟩,
         CallReq.traceCall ⟨[], none, ⟨3⟩⟩]).items =
      [] ++ [CallReq.logsCall ⟨[], none, ⟨1⟩⟩, CallReq.metricsCall ⟨[], none, ⟨2⟩⟩,
         CallReq.traceCall ⟨[], none, (⟨3⟩ : ExportTraceServiceRequest)⟩].map CallReq.toEvent ∧
     allAcksOk ⟨false, []⟩
        [CallReq.logsCall ⟨[], none, ⟨1⟩⟩, CallReq.metricsCall ⟨[], none, ⟨2⟩⟩,
         CallReq.traceCall ⟨[], none, ⟨3⟩⟩] = true) :=
  ⟨rfl, C8_sequential_calls_fifo ⟨false, []⟩
    [CallReq.logsCall ⟨[], none, ⟨1⟩⟩, CallReq.metricsCall ⟨[], none, ⟨2⟩⟩,
     CallReq.traceCall ⟨[], none, ⟨3⟩⟩] rfl⟩

/-- C9: every export call yields exactly one outcome — a single
acknowledgement or a single error — with no retry or suppression: a
forwarding export is fully characterized by one enqueue attempt, which on
the error path leaves the forwarder (hence the queue) unchanged and on the
success path appends exactly one item; a callback export is exactly the
handler's one result. -/
theorem C9_single_outcome_atomic_enqueue
    (f : OtelLogsServiceForwarder) (r : TonicRequest ExportLogsServiceRequest)
    (g : OtelMetricsServiceForwarder) (s : TonicRequest ExportMetricsServiceRequest)
    (hL : TonicRequest ExportLogsServiceRequest →
      Except Status (TonicResponse ExportLogsServiceResponse))
    (rL : TonicRequest ExportLogsServiceRequest) :
    OtelLogsServiceForwarder.export' f r =
      (if f.channel.closed then
        (Except.error (Status.internal
          "Logs gRPC forwarder channel sender failed to dispatch sending into a closed channel"),
         f)
       else
        (Except.ok (TonicResponse.new ExportLogsServiceResponse.mk),
         { f with channel := { f.channel with
             items := f.channel.items ++ [r.into_inner] } })) ∧
    OtelMetricsServiceForwarder.export' g s =
      (if g.channel.closed then
        (Except.error (Status.internal
          "Metrics gRPC forwarder channel sender failed to dispatch sending into a closed channel"),
         g)
       else
        (Except.ok (TonicResponse.new ExportMetricsServiceResponse.mk),
         { g with channel := { g.channel with
             items := g.channel.items ++ [s.into_inner] } })) ∧
    OtelLogsService.export' (OtelLogsService.with_handler hL) rL = hL rL := by
  refine ⟨?_, ?_, rfl⟩
  · rcases hf : f.channel.closed <;>
      simp [OtelLogsServiceForwarder.export', Channel.send, hf, SendError.toString]
  · rcases hg : g.channel.closed <;>
      simp [OtelMetricsServiceForwarder.export', Channel.send, hg, SendError.toString]

/-- C10: a queue-forwarding export (single-signal or combined) enqueues
exactly the request's inner protocol-buffer message (under its signal's
variant in combined mode) and its entire observable outcome is independent
of the transport-level envelope (metadata headers, remote address), which
therefore never reaches the queue consumer. -/
theorem C10_envelope_discarded
    (ch : Channel ExportLogsServiceRequest) (chE : Channel OpenTelemetryEvents)
    (m1 m2 : List (String × String)) (a1 a2 : Option String)
    (msg : ExportLogsServiceRequest) (msgT : ExportTraceServiceRequest) :
    OtelLogsServiceForwarder.export' ⟨ch⟩ ⟨m1, a1, msg⟩ =
      OtelLogsServiceForwarder.export' ⟨ch⟩ ⟨m2, a2, msg⟩ ∧
    (OtelLogsServiceForwarder.export' ⟨ch⟩ ⟨m1, a1, msg⟩).2.channel.items =
      ch.items ++ (if ch.closed then [] else [msg]) ∧
    all.LogsServiceForwarder.export' ⟨chE⟩ ⟨m1, a1, msg⟩ =
      all.LogsServiceForwarder.export' ⟨chE⟩ ⟨m2, a2, msg⟩ ∧
    (all.LogsServiceForwarder.export' ⟨chE⟩ ⟨m1, a1, msg⟩).2.channel.items =
      chE.items ++ (if chE.closed then [] else [OpenTelemetryEvents.Logs msg]) ∧
    all.TraceServiceForwarder.export' ⟨chE⟩ ⟨m1, a1, msgT⟩ =
      all.TraceServiceForwarder.export' ⟨chE⟩ ⟨m2, a2, msgT⟩ ∧
    (all.TraceServiceForwarder.export' ⟨chE⟩ ⟨m1, a1, msgT⟩).2.channel.items =
      chE.items ++ (if chE.closed then [] else [OpenTelemetryEvents.Trace msgT]) := by
  rcases hc : ch.closed <;> rcases he : chE.closed <;>
    simp [OtelLogsServiceForwarder.export', all.LogsServiceForwarder.export',
      all.TraceServiceForwarder.export', Channel.send, hc, he,
      TonicRequest.into_inner, SendError.toString]
